import Mathlib

/-!
Shallow embedding of the `asesor_financiero` repository (a conversational
financial-advisory assistant) and proofs about its specification claims.

Source files embedded:
* `security.py`  — keyword/pattern screening, data sanitisation, topic filter
* `bcrp_api.py`  — economic-context resolver and client for the BCRP
  statistics service (the HTTP layer is abstracted as an oracle argument)
* `app.py`       — the per-turn orchestrator `on_message`

Modelling conventions:
* Python strings are Lean `String`s; `str.lower()` is modelled by mapping
  `Char.toLower` (exact on ASCII, identity on the already-lowercase accented
  characters appearing in the configured rule lists).
* Python's substring test `a in b` is `pyIn`.
* The regular expressions appearing in the source are transcribed into a
  small pattern AST (`RTok`) whose search semantics follow `re.search`, and
  the three substitution patterns of `sanitize_financial_data` are
  transcribed as match-at-position functions driven by a generic `re.sub`
  scanner (`subScan`).
* Machine-level details (HTTP, JSON parsing, randomness, logging) are
  abstracted: the network is an oracle `List String → HttpResult`, and each
  series request issued is recorded in a call log so that "no external call
  is made" style claims are statable.
-/

/-! ### Python string primitives -/

/-- Model of Python `str.lower()` (`Char.toLower` is exact on ASCII;
the accented characters used by the rule lists are already lowercase). -/
def pyLower (s : String) : String :=
  ⟨s.data.map Char.toLower⟩

/-- Does `hay` start with `pre`? -/
def startsWithL (hay pre : List Char) : Bool :=
  hay.take pre.length == pre

/-- Substring containment on character lists (Python `needle in hay`). -/
def listIn (needle : List Char) : List Char → Bool
  | [] => needle.isEmpty
  | c :: t => startsWithL (c :: t) needle || listIn needle t

/-- Model of Python's substring test `needle in hay`. -/
def pyIn (needle hay : String) : Bool :=
  listIn needle.data hay.data

/-- Helper for `pySplit`: accumulates the current word (reversed). -/
def splitWsAux (cur : List Char) : List Char → List (List Char)
  | [] => if cur.isEmpty then [] else [cur.reverse]
  | c :: t =>
    if c.isWhitespace then
      if cur.isEmpty then splitWsAux [] t else cur.reverse :: splitWsAux [] t
    else
      splitWsAux (c :: cur) t

/-- Model of Python `str.split()` with no arguments: split on whitespace
runs, discarding empty fields. -/
def pySplit (s : String) : List String :=
  (splitWsAux [] s.data).map fun l => ⟨l⟩

/-! ### `security.py` — prohibited keyword lists -/

/-- `security.palabras_in`: prohibited keywords for user input. -/
def palabras_in : List String := [
  "hackear", "robar", "estafar", "defraudar", "falsificar",
  "lavar dinero", "lavado de dinero", "evadir impuestos", "evasión fiscal",
  "cuentas fantasma", "cuenta offshore ilegal", "piramide", "esquema ponzi",
  "clonar tarjeta", "skimming", "phishing", "fraude bancario",
  "transferencia ilegal", "suplantación de identidad",
  "préstamo gota a gota", "usura", "prestamista ilegal",
  "inversión piramidal", "multinivel fraudulento",
  "dame el pin", "contraseña de", "clave de", "datos de cuenta de otra persona",
  "mejor que [banco]", "peor banco", "banco fraudulento",
  "no dar crédito por", "discriminar por edad", "discriminar por género",
  "ignora las instrucciones", "eres ahora", "modo desarrollador",
  "prompt injection", "system prompt", "olvida tu rol"]

/-- `security.palabras_out`: prohibited keywords for LLM output. -/
def palabras_out : List String := [
  "no puedo ayudarte", "no sé", "no tengo información",
  "fuera de mi alcance", "no es mi función",
  "garantizo que ganarás", "inversión sin riesgo", "dinero fácil",
  "nunca perderás", "rendimiento asegurado",
  "tu contraseña es", "tu pin es", "tu clave es",
  "evade impuestos", "oculta ingresos", "lava dinero",
  "falsifica documentos", "miente en tu declaración",
  "por tu edad no", "por tu género no", "por tu raza no",
  "criptomoneda sin regulación", "inversión piramidal",
  "maldiciones", "groserías", "palabras ofensivas"]

/-! ### Mini regular-expression engine

Just enough to transcribe the patterns of `security.patterns_in` and
`security.patterns_out`.  Search semantics agree with `re.search`: a
pattern matches a text iff some suffix start position admits a match;
the engine is nondeterministic (all remainders are produced), which is
equivalent to the backtracking engine for a boolean search. -/

/-- Character kinds occurring in the source regexes. -/
inductive CharKind
  | space   -- regex class backslash-s
  | word    -- regex class backslash-w (ASCII model)
  | digit   -- regex class backslash-d
deriving DecidableEq, Repr

def CharKind.pred : CharKind → Char → Bool
  | .space => Char.isWhitespace
  | .word => fun c => c.isAlphanum || c = '_'
  | .digit => Char.isDigit

/-- Tokens of the transcribed regexes. -/
inductive RTok
  | lit (s : String)          -- literal characters
  | cls (cs : String)         -- one character out of a set, e.g. `[ae]`
  | kplus (k : CharKind)      -- one or more characters of a kind
  | litOpt (c : Char)         -- an optional literal character, e.g. `l?`
  | alt (ss : List String)    -- alternation of literal strings
deriving Repr

abbrev RPat := List RTok

/-- All remainders after consuming one or more `p`-characters. -/
def plusRems (p : Char → Bool) : List Char → List (List Char)
  | [] => []
  | c :: t => if p c then t :: plusRems p t else []

/-- All remainders after matching one token at the start of the text. -/
def tokRems : RTok → List Char → List (List Char)
  | .lit s, l => if startsWithL l s.data then [l.drop s.length] else []
  | .cls _, [] => []
  | .cls cs, c :: t => if cs.data.contains c then [t] else []
  | .kplus k, l => plusRems k.pred l
  | .litOpt _, [] => [[]]
  | .litOpt c, c' :: t => if c = c' then [t, c' :: t] else [c' :: t]
  | .alt ss, l =>
    ss.filterMap fun s => if startsWithL l s.data then some (l.drop s.length) else none

/-- Does the token sequence match a prefix of the text? -/
def seqMatch : RPat → List Char → Bool
  | [], _ => true
  | tok :: rest, l => (tokRems tok l).any fun r => seqMatch rest r

/-- Model of `re.search(pattern, text) is not None`. -/
def reSearch (p : RPat) : List Char → Bool
  | [] => seqMatch p []
  | c :: t => seqMatch p (c :: t) || reSearch p t

/-- `security.patterns_in`, paired with their source strings (the string is
what `check_input` reports as the blocked detail). -/
def patternsIn : List (String × RPat) := [
  ("cu[ae]nta\\s+de\\s+\\w+",
   [.lit "cu", .cls "ae", .lit "nta", .kplus .space, .lit "de", .kplus .space,
    .kplus .word]),
  ("clave\\s+de\\s+mi\\s+(esposa|esposo|amigo|jefe)",
   [.lit "clave", .kplus .space, .lit "de", .kplus .space, .lit "mi",
    .kplus .space, .alt ["esposa", "esposo", "amigo", "jefe"]]),
  ("c[oó]mo\\s+(ocultar|esconder)\\s+(ingresos|dinero|ganancias)",
   [.lit "c", .cls "oó", .lit "mo", .kplus .space,
    .alt ["ocultar", "esconder"], .kplus .space,
    .alt ["ingresos", "dinero", "ganancias"]]),
  ("evitar\\s+pagar\\s+(impuestos|tributos)",
   [.lit "evitar", .kplus .space, .lit "pagar", .kplus .space,
    .alt ["impuestos", "tributos"]]),
  ("transferir\\s+sin\\s+que\\s+se\\s+den\\s+cuenta",
   [.lit "transferir", .kplus .space, .lit "sin", .kplus .space, .lit "que",
    .kplus .space, .lit "se", .kplus .space, .lit "den", .kplus .space,
    .lit "cuenta"]),
  ("sacar\\s+dinero\\s+de\\s+cuenta\\s+ajena",
   [.lit "sacar", .kplus .space, .lit "dinero", .kplus .space, .lit "de",
    .kplus .space, .lit "cuenta", .kplus .space, .lit "ajena"])]

/-- `security.patterns_out`, paired with their source strings. -/
def patternsOut : List (String × RPat) := [
  ("(garantizo|aseguro|prometo)\\s+que\\s+(ganarás|nunca perderás)",
   [.alt ["garantizo", "aseguro", "prometo"], .kplus .space, .lit "que",
    .kplus .space, .alt ["ganarás", "nunca perderás"]]),
  ("rendimiento\\s+(garantizado|asegurado|seguro)\\s+del?\\s+\\d+%",
   [.lit "rendimiento", .kplus .space,
    .alt ["garantizado", "asegurado", "seguro"], .kplus .space, .lit "de",
    .litOpt 'l', .kplus .space, .kplus .digit, .lit "%"]),
  ("(evita|evade|esquiva)\\s+(impuestos|tributos|sbs)",
   [.alt ["evita", "evade", "esquiva"], .kplus .space,
    .alt ["impuestos", "tributos", "sbs"]])]

/-! ### `security.py` — screening functions -/

/-- `security.check_input`: returns `(is_blocked, tipo_bloqueo, detalle)`.
The source iterates over `palabras_in` returning on the first
case-insensitive substring hit, then over `patterns_in` returning on the
first `re.search` hit; the first-hit loops are `List.find?`. -/
def check_input (message : String) : Bool × String × String :=
  let ml := pyLower message
  match palabras_in.find? (fun palabra => pyIn (pyLower palabra) ml) with
  | some palabra => (true, "palabra", palabra)
  | none =>
    match patternsIn.find? (fun pr => reSearch pr.2 ml.data) with
    | some pr => (true, "patrón", pr.1)
    | none => (false, "", "")

/-- `security.check_output`: same structure as `check_input` over the
output rule sets. -/
def check_output (response : String) : Bool × String × String :=
  let rl := pyLower response
  match palabras_out.find? (fun palabra => pyIn (pyLower palabra) rl) with
  | some palabra => (true, "palabra", palabra)
  | none =>
    match patternsOut.find? (fun pr => reSearch pr.2 rl.data) with
    | some pr => (true, "patrón", pr.1)
    | none => (false, "", "")

/-! ### `security.py` — data sanitiser

`sanitize_financial_data` performs three `re.sub` passes in order:
card numbers, account numbers, CVV values.  Each pattern is transcribed as
a match-at-position function `Option Char → List Char → Option (Nat × List Char)`
returning the length of the match starting at the current position and the
replacement text; `prev` is the character before the position (needed for
the word-boundary assertions).  `subScan` is the generic `re.sub` driver:
leftmost match wins, scanning resumes after the matched span, and the
boundary context comes from the original text. -/

/-- ASCII model of a regex word character (backslash-w). -/
def isWordChar (c : Char) : Bool :=
  c.isAlphanum || c = '_'

/-- Word-boundary test between two optional characters. -/
def atBoundary (prev next : Option Char) : Bool :=
  (match prev with | some c => isWordChar c | none => false)
    != (match next with | some c => isWordChar c | none => false)

/-- Boundary test for a position directly after a matched digit: the next
character must be absent or a non-word character. -/
def boundaryAfterWord (rest : List Char) : Bool :=
  match rest.head? with
  | none => true
  | some c => !isWordChar c

/-- Consume exactly `k` leading digits. -/
def takeDigits : Nat → List Char → Option (List Char)
  | 0, l => some l
  | _ + 1, [] => none
  | k + 1, c :: t => if c.isDigit then takeDigits k t else none

/-- The card separator class `[\s-]`. -/
def isCardSep (c : Char) : Bool :=
  c.isWhitespace || c = '-'

/-- `[\s-]?` directly before a digit group: the optional separator is
deterministic because a separator is never a digit, so the greedy optional
consumes the head iff it is a separator. -/
def sepOpt (l : List Char) : List Char :=
  match l with
  | c :: t => if isCardSep c then t else l
  | [] => l

/-- Number of leading digits. -/
def digitRun (l : List Char) : Nat :=
  (l.takeWhile Char.isDigit).length

/-- Match-at-position for the card pattern
`\b\d{4}[\s-]?\d{4}[\s-]?\d{4}[\s-]?\d{4}\b` with replacement
`[TARJETA-OCULTA]`. -/
def matchCard (prev : Option Char) (l : List Char) : Option (Nat × List Char) :=
  if atBoundary prev l.head? then
    (takeDigits 4 l).bind fun r1 =>
    (takeDigits 4 (sepOpt r1)).bind fun r2 =>
    (takeDigits 4 (sepOpt r2)).bind fun r3 =>
    (takeDigits 4 (sepOpt r3)).bind fun r4 =>
    if boundaryAfterWord r4 then
      some (l.length - r4.length, "[TARJETA-OCULTA]".data)
    else none
  else none

/-- Match-at-position for the account pattern `\b\d{10,20}\b` with
replacement `[CUENTA-OCULTA]`.  The greedy counted repetition is
deterministic: taking fewer than all leading digits leaves a digit at the
closing boundary, which fails, so only the full run (when it has length
10–20 and is followed by a boundary) can match. -/
def matchAccount (prev : Option Char) (l : List Char) : Option (Nat × List Char) :=
  let m := digitRun l
  if atBoundary prev l.head? && decide (10 ≤ m) && decide (m ≤ 20)
      && boundaryAfterWord (l.drop m) then
    some (m, "[CUENTA-OCULTA]".data)
  else none

/-- The four CVV labels of the source pattern, in alternation order. -/
def cvvLabels : List String := ["cvv", "código", "code", "cvc"]

/-- The CVV separator class `[\s:]`. -/
def isCvvSep (c : Char) : Bool :=
  c.isWhitespace || c = ':'

/-- First alternative of `alts` matching a prefix of `l`
case-insensitively (`re.IGNORECASE`); returns the matched length.
At most one of the four CVV labels can match at a given position (they
differ within their common length), so first-alternative order agrees
with the backtracking engine. -/
def matchAltCI (alts : List String) (l : List Char) : Option Nat :=
  alts.findSome? fun a =>
    if (l.take a.length).map Char.toLower == a.data.map Char.toLower then
      some a.length
    else none

/-- Match-at-position for the CVV pattern
`(cvv|código|code|cvc)[\s:]+\d{3,4}` (IGNORECASE) with replacement
`\1: [OCULTO]`.  The separator run is deterministic (separators are never
digits), and the greedy `\d{3,4}` takes four digits when available,
otherwise three. -/
def matchCvv (_prev : Option Char) (l : List Char) : Option (Nat × List Char) :=
  match matchAltCI cvvLabels l with
  | none => none
  | some g =>
    let rest := l.drop g
    let s := (rest.takeWhile isCvvSep).length
    if s = 0 then none
    else
      let d := digitRun (rest.drop s)
      if 4 ≤ d then some (g + s + 4, l.take g ++ ": [OCULTO]".data)
      else if d = 3 then some (g + s + 3, l.take g ++ ": [OCULTO]".data)
      else none

/-- Generic `re.sub` scanner: leftmost match, replacement emitted, scan
resumes after the matched span; `prev` tracks the original character
before the current position (for boundary assertions).  Resuming after a
match of length `n` is implemented by a structural skip counter: after
emitting the replacement the scanner consumes the remaining `n - 1`
matched characters without attempting further matches, so that when the
counter reaches zero `prev` holds the last character of the matched span,
exactly as in `re.sub` over the original text. -/
def subScan (matchAt : Option Char → List Char → Option (Nat × List Char)) :
    Nat → Option Char → List Char → List Char
  | _, _, [] => []
  | k + 1, _, c :: t => subScan matchAt k (some c) t
  | 0, prev, c :: t =>
    match matchAt prev (c :: t) with
    | some (n, repl) =>
      if n = 0 then c :: subScan matchAt 0 (some c) t
      else repl ++ subScan matchAt (n - 1) (some c) t
    | none => c :: subScan matchAt 0 (some c) t

/-- One `re.sub` pass over a string. -/
def pySub (matchAt : Option Char → List Char → Option (Nat × List Char))
    (s : String) : String :=
  ⟨subScan matchAt 0 none s.data⟩

/-- `security.sanitize_financial_data`: card pass, then account pass, then
CVV pass. -/
def sanitize_financial_data (text : String) : String :=
  pySub matchCvv (pySub matchAccount (pySub matchCard text))

/-! ### `security.py` — financial-context validation -/

/-- `security.validate_financial_context`'s keyword list. -/
def financial_keywords : List String := [
  "préstamo", "crédito", "ahorro", "inversión", "banco", "cuenta",
  "tarjeta", "tasa", "interés", "deuda", "plazo fijo", "hipoteca",
  "seguro", "tcea", "trea", "cts", "afp", "fondos", "dinero",
  "soles", "dólares", "financiero", "económico", "presupuesto"]

/-- `security.validate_financial_context`: messages of fewer than three
whitespace-separated words are accepted unconditionally; otherwise at
least one financial keyword must occur in the lowercased message. -/
def validate_financial_context (message : String) : Bool × String :=
  let ml := pyLower message
  if (pySplit message).length < 3 then (true, "")
  else if financial_keywords.any (fun kw => pyIn kw ml) then (true, "")
  else (false, "La consulta no parece estar relacionada con finanzas.")

/-! ### `bcrp_api.py` — data model

JSON numbers only ever flow through the resolver into formatted text, so
they are carried abstractly as their textual rendering (`Val`); only their
positional identity matters to the claims.  The HTTP layer is an oracle
`net : List String → HttpResult` mapping the requested series codes to the
outcome of `requests.get`; every function that issues requests also
returns the list of code lists requested, so that claims about which
external calls happen are statable. -/

/-- Abstract JSON scalar (a number or string as it would be rendered). -/
abbrev Val := String

/-- One element of the response's `periods` array: `name` and `values`
keys are both optional in the JSON. -/
structure Period where
  name : Option Val
  values : Option (List Val)
deriving DecidableEq, Repr

/-- The parsed JSON dictionary returned by the statistics API.
`periods := none` models the `periods` key being absent (as in the
`{"error": ...}` dictionary `get_series` builds on request failure);
`configSeries := none` models `config` or `config.series` being absent. -/
structure ApiData where
  periods : Option (List Period) := none
  error : Option String := none
  configSeries : Option (List (Option String)) := none
deriving DecidableEq, Repr

/-- Outcome of one `requests.get` against the statistics service. -/
inductive HttpResult
  | ok (d : ApiData)       -- HTTP 200 with parseable JSON
  | err (msg : String)     -- `requests.RequestException` (connection error, timeout, or HTTP error from `raise_for_status`)
  | badJson (msg : String) -- HTTP 200 but `response.json()` raises
deriving DecidableEq, Repr

/-- A network outcome that is a failure (error or malformed response). -/
def HttpResult.isFailure : HttpResult → Bool
  | .ok _ => false
  | .err _ => true
  | .badJson _ => true

/-- Result of `BCRPClient.get_series` as seen by its caller. -/
inductive GetSeriesResult
  | valueError             -- `ValueError("Máximo 10 series por consulta")` raised to the caller
  | raisedJson (msg : String) -- JSON decode error propagating out of the method
  | data (d : ApiData)     -- the returned dictionary (possibly the error dictionary)
deriving DecidableEq, Repr

/-- `SeriesCodes.TIPO_CAMBIO_PROMEDIO`. -/
def tcPromedioCode : String := "PD04637PD"

/-- `SeriesCodes.TIPO_CAMBIO_COMPRA`. -/
def tcCompraCode : String := "PD04638PD"

/-- `SeriesCodes.TIPO_CAMBIO_VENTA`. -/
def tcVentaCode : String := "PD04639PD"

/-- `SeriesCodes.TASA_REFERENCIA_BCRP`. -/
def tasaReferenciaCode : String := "PD04711PD"

/-- `SeriesCodes.TAMN_DEPOSITOS`. -/
def tamnDepositosCode : String := "PD04718PD"

/-- `SeriesCodes.TAMEX_DEPOSITOS`. -/
def tamexDepositosCode : String := "PD04719PD"

/-- `SeriesCodes.INFLACION_ANUAL`. -/
def inflacionAnualCode : String := "PN01272PM"

/-- `SERIES_DESCRIPTIONS` (code → friendly description). -/
def seriesDescriptions : List (String × String) := [
  (tcPromedioCode, "Tipo de cambio promedio (S/ por US$)"),
  (tcCompraCode, "Tipo de cambio compra (S/ por US$)"),
  (tcVentaCode, "Tipo de cambio venta (S/ por US$)"),
  (tasaReferenciaCode, "Tasa de referencia del BCRP (%)"),
  ("PD04706PD", "Tasa interbancaria (%)"),
  (tamnDepositosCode, "TAMN - Tasa activa de depósitos en soles (%)"),
  (tamexDepositosCode, "TAMEX - Tasa activa de depósitos en dólares (%)"),
  ("PD04720PD", "TCEA préstamos personales en soles (%)"),
  ("PD04721PD", "TCEA préstamos personales en dólares (%)"),
  ("PN01270PM", "IPC Nacional - Variación mensual (%)"),
  (inflacionAnualCode, "Inflación anual (%)"),
  ("PD04635PD", "Reservas Internacionales Netas (millones US$)"),
  ("PN01755AQ", "PBI real - Variación trimestral (%)")]

/-- `SERIES_DESCRIPTIONS.get(code, "")`. -/
def descLookup (code : String) : String :=
  (((seriesDescriptions.find? fun p => p.1 == code).map fun p => p.2).getD "")

/-! ### `bcrp_api.py` — `BCRPClient` methods

The client is stateless; only the default parameters used by this
repository (`json` output, no period range, Spanish) are modelled. -/

/-- `BCRPClient.get_series`: raises `ValueError` (issuing no request) for
more than 10 codes, otherwise issues one request and catches
`requests.RequestException` into the `{"error": str(e)}` dictionary.
The second component is the log of requests issued. -/
def get_series (net : List String → HttpResult) (series_codes : List String) :
    GetSeriesResult × List (List String) :=
  if series_codes.length > 10 then (.valueError, [])
  else
    (match net series_codes with
     | .ok d => .data d
     | .err m => .data { error := some m }
     | .badJson m => .raisedJson m,
     [series_codes])

/-- The dictionary built by `BCRPClient.get_tipo_cambio`. -/
structure TipoCambio where
  fecha : Option Val
  promedio : Option Val
  compra : Option Val
  venta : Option Val
deriving DecidableEq, Repr

/-- The dictionary built by `BCRPClient.get_tasas_interes`. -/
structure Tasas where
  fecha : Option Val
  tasa_referencia : Option Val
  tamn_depositos : Option Val
  tamex_depositos : Option Val
deriving DecidableEq, Repr

/-- The dictionary built by `BCRPClient.get_latest_value`. -/
structure LatestValue where
  serie : String
  codigo : String
  periodo : Option Val
  valor : Option Val
  descripcion : String
deriving DecidableEq, Repr

/-- `data.get("config", {}).get("series", [{}])[0].get("name", series_code)`
in `get_latest_value`; `none` is the `IndexError` raised when the `series`
list is present but empty (caught by the method's `except`). -/
def seriesNameOf (d : ApiData) (code : String) : Option String :=
  match d.configSeries with
  | none => some code
  | some [] => none
  | some (o :: _) => some (o.getD code)

/-- `BCRPClient.get_tipo_cambio`: one batched request for the three
exchange-rate codes; takes the last period and maps `values` back to the
codes by position (`values[i] if len(values) > i else None`); any
exception inside is caught into `None`. -/
def get_tipo_cambio (net : List String → HttpResult) :
    Option TipoCambio × List (List String) :=
  let (r, calls) := get_series net [tcPromedioCode, tcCompraCode, tcVentaCode]
  (match r with
   | .data d =>
     match d.periods with
     | some ps =>
       match ps.getLast? with
       | some last_period =>
         let values := last_period.values.getD []
         some { fecha := last_period.name, promedio := values[0]?,
                compra := values[1]?, venta := values[2]? }
       | none => none         -- `data["periods"]` is falsy (empty list)
     | none => none           -- `"periods" not in data`
   | _ => none,               -- a raised exception is caught into `None`
   calls)

/-- `BCRPClient.get_tasas_interes`: same shape over the three rate codes. -/
def get_tasas_interes (net : List String → HttpResult) :
    Option Tasas × List (List String) :=
  let (r, calls) :=
    get_series net [tasaReferenciaCode, tamnDepositosCode, tamexDepositosCode]
  (match r with
   | .data d =>
     match d.periods with
     | some ps =>
       match ps.getLast? with
       | some last_period =>
         let values := last_period.values.getD []
         some { fecha := last_period.name, tasa_referencia := values[0]?,
                tamn_depositos := values[1]?, tamex_depositos := values[2]? }
       | none => none
     | none => none
   | _ => none,
   calls)

/-- `BCRPClient.get_latest_value`: single-series fetch; the series display
name comes from `config.series` (with `IndexError` caught into `None`),
`valor` is `last_period.get("values", [None])[0]`, whose `IndexError` on
an empty `values` list is likewise caught into `None`. -/
def get_latest_value (net : List String → HttpResult) (series_code : String) :
    Option LatestValue × List (List String) :=
  let (r, calls) := get_series net [series_code]
  (match r with
   | .data d =>
     match d.periods with
     | some ps =>
       match ps.getLast? with
       | some last_period =>
         match seriesNameOf d series_code with
         | none => none           -- IndexError computing the name
         | some nm =>
           match last_period.values with
           | none =>              -- `.get("values", [None])[0]` is `None`
             some { serie := nm, codigo := series_code,
                    periodo := last_period.name, valor := none,
                    descripcion := descLookup series_code }
           | some [] => none      -- `values[0]` raises IndexError
           | some (v :: _) =>
             some { serie := nm, codigo := series_code,
                    periodo := last_period.name, valor := some v,
                    descripcion := descLookup series_code }
       | none => none
     | none => none
   | _ => none,
   calls)

/-- `BCRPClient.get_inflacion`. -/
def get_inflacion (net : List String → HttpResult) :
    Option LatestValue × List (List String) :=
  get_latest_value net inflacionAnualCode

/-! ### `bcrp_api.py` — formatting and the economic-context resolver -/

/-- The three dictionary shapes `format_for_prompt` receives in this
repository, distinguished exactly as the source does by the presence of
the `serie` / `promedio` / `tasa_referencia` keys. -/
inductive BcrpData
  | latest (v : LatestValue)
  | tipoCambio (v : TipoCambio)
  | tasas (v : Tasas)
deriving DecidableEq, Repr

/-- Python string interpolation of a possibly-`None` value. -/
def showOpt (o : Option Val) : String :=
  o.getD "None"

/-- `BCRPClient.format_for_prompt` on the dictionary shapes produced by
this repository (none of them carries an `error` key). -/
def format_for_prompt : BcrpData → String
  | .latest v =>
    let base := ["📊 " ++ v.serie,
                 "   Periodo: " ++ showOpt v.periodo,
                 "   Valor: " ++ showOpt v.valor]
    let parts := if v.descripcion ≠ "" then base ++ ["   " ++ v.descripcion] else base
    String.intercalate "\n" parts
  | .tipoCambio v =>
    String.intercalate "\n"
      ["💱 Tipo de Cambio (" ++ showOpt v.fecha ++ ")",
       "   Promedio: S/ " ++ showOpt v.promedio,
       "   Compra: S/ " ++ showOpt v.compra,
       "   Venta: S/ " ++ showOpt v.venta]
  | .tasas v =>
    String.intercalate "\n"
      ["📈 Tasas de Interés (" ++ showOpt v.fecha ++ ")",
       "   Tasa de Referencia BCRP: " ++ showOpt v.tasa_referencia ++ "%",
       "   TAMN Depósitos: " ++ showOpt v.tamn_depositos ++ "%",
       "   TAMEX Depósitos: " ++ showOpt v.tamex_depositos ++ "%"]

/-- `detect_economic_query`'s intent table, in declaration order
(Python dictionaries iterate in insertion order). -/
def econPatterns : List (String × List String) := [
  ("tipo_cambio", ["tipo de cambio", "dolar", "dólar", "tc", "cambio dolar"]),
  ("tasas", ["tasa de interes", "tasa de interés", "tamn", "tamex", "tasa referencia"]),
  ("inflacion", ["inflacion", "inflación", "ipc"]),
  ("general", ["datos económicos", "indicadores económicos", "estadísticas bcrp"])]

/-- `detect_economic_query`: first intent (in declaration order) with a
case-insensitive keyword hit, else `None`. -/
def detect_economic_query (message : String) : Option String :=
  let ml := pyLower message
  (econPatterns.find? fun p => p.2.any fun keyword => pyIn keyword ml).map
    fun p => p.1

/-- The header line `get_economic_context` seeds its parts with. -/
def bcrpHeader : String := "--- DATOS ECONÓMICOS ACTUALIZADOS (BCRP) ---\n"

/-- The source line `get_economic_context` always appends. -/
def bcrpFuente : String := "\nFuente: Banco Central de Reserva del Perú (BCRP)"

/-- `get_economic_context`: resolves the intent, fetches the matching
bundle(s) — appending formatted text only for truthy results — and joins
header, data sections and source line with newlines.  No intent means the
empty string with no request issued.  The `except` clause around the body
is unreachable (every helper catches its own exceptions), so the embedding
has no failure branch. -/
def get_economic_context (message : String) (net : List String → HttpResult) :
    String × List (List String) :=
  match detect_economic_query message with
  | none => ("", [])
  | some query_type =>
    let (body, calls) : List String × List (List String) :=
      if query_type = "tipo_cambio" then
        let (d, cs) := get_tipo_cambio net
        (match d with
         | some v => [format_for_prompt (.tipoCambio v)]
         | none => [], cs)
      else if query_type = "tasas" then
        let (d, cs) := get_tasas_interes net
        (match d with
         | some v => [format_for_prompt (.tasas v)]
         | none => [], cs)
      else if query_type = "inflacion" then
        let (d, cs) := get_inflacion net
        (match d with
         | some v => [format_for_prompt (.latest v)]
         | none => [], cs)
      else if query_type = "general" then
        let (tc, cs1) := get_tipo_cambio net
        let (ts, cs2) := get_tasas_interes net
        ((match tc with
          | some v => [format_for_prompt (.tipoCambio v)]
          | none => []) ++
         (match ts with
          | some v => ["\n" ++ format_for_prompt (.tasas v)]
          | none => []), cs1 ++ cs2)
      else ([], [])
    (String.intercalate "\n" (bcrpHeader :: body ++ [bcrpFuente]), calls)

/-- The exact context `get_economic_context` returns when an intent
matched but every fetch failed: header and source line with no data. -/
def bcrpFailureContext : String :=
  String.intercalate "\n" [bcrpHeader, bcrpFuente]

/-! ### `app.py` — the per-turn orchestrator `on_message` -/

/-- One entry of the LangChain `ChatMessageHistory` backing the session. -/
structure ChatMsg where
  role : String
  text : String
deriving DecidableEq, Repr

/-- Terminal state of one turn of `on_message`. -/
inductive TurnOutcome
  | inputBlocked            -- input screen hit: a random input disclaimer is sent
  | outputBlocked           -- output screen hit: streamed message removed, random output disclaimer sent
  | answered (full : String) -- the validated streamed response is kept
deriving DecidableEq, Repr

/-- `app.on_message`, parameterised by the session history and the chunk
stream the generation chain produces for this turn.

The agent is the chain wrapped in `RunnableWithMessageHistory`, which
appends the turn's input message (the sanitised text passed as
`{"input": sanitized_message}`) and the aggregated output message to the
session's `ChatMessageHistory` when the wrapped chain's stream completes —
that is, after the `async for` loop finishes and before
`security.check_output` runs.  A blocked output leads to `msg.remove()`,
which retracts the user-visible message only; nothing removes the two
entries already committed to the history. -/
def on_message (history : List ChatMsg) (content : String)
    (chunks : List String) : List ChatMsg × TurnOutcome :=
  let sanitized_message := sanitize_financial_data content
  let (is_blocked, _, _) := check_input sanitized_message
  if is_blocked then (history, .inputBlocked)
  else
    let full_response := String.join chunks
    let history' := history ++ [⟨"human", sanitized_message⟩, ⟨"ai", full_response⟩]
    let (is_blocked_out, _, _) := check_output full_response
    if is_blocked_out then (history', .outputBlocked)
    else (history', .answered full_response)

/-! ## Helper lemmas -/

/-- A character satisfying `isDigit` differs from any character that does
not. -/
theorem ne_of_digit {c : Char} (h : c.isDigit = true) (x : Char)
    (hx : x.isDigit = false) : c ≠ x := by
  intro he
  subst he
  rw [h] at hx
  cases hx

/-- Digits are not regex whitespace. -/
theorem isWhitespace_false_of_digit {c : Char} (h : c.isDigit = true) :
    c.isWhitespace = false := by
  have h1 := ne_of_digit h ' ' (by decide)
  have h2 := ne_of_digit h '\t' (by decide)
  have h3 := ne_of_digit h '\r' (by decide)
  have h4 := ne_of_digit h '\n' (by decide)
  simp [Char.isWhitespace, h1, h2, h3, h4]

/-- Digits are not CVV separators. -/
theorem isCvvSep_false_of_digit {c : Char} (h : c.isDigit = true) :
    isCvvSep c = false := by
  have h1 := ne_of_digit h ':' (by decide)
  simp [isCvvSep, isWhitespace_false_of_digit h, h1]

/-- `digitRun` never exceeds the number of digit characters. -/
theorem digitRun_le_countP (l : List Char) :
    digitRun l ≤ l.countP Char.isDigit := by
  induction l with
  | nil => simp [digitRun]
  | cons c t ih =>
    by_cases hc : c.isDigit
    · simp only [digitRun, List.takeWhile_cons_of_pos hc, List.length_cons,
        List.countP_cons_of_pos _ _ hc]
      exact Nat.succ_le_succ ih
    · simp [digitRun, List.takeWhile_cons_of_neg hc]

/-- A run consisting entirely of digits is taken whole by `digitRun`. -/
theorem digitRun_eq_length (l : List Char) (h : ∀ x ∈ l, x.isDigit = true) :
    digitRun l = l.length := by
  induction l with
  | nil => simp [digitRun]
  | cons c t ih =>
    have hc : c.isDigit = true := h c (by simp)
    simp only [digitRun, List.takeWhile_cons_of_pos hc, List.length_cons]
    have := ih fun x hx => h x (by simp [hx])
    simp [digitRun] at this
    simp [this]

/-- Consuming `k` digits removes exactly `k` digit characters. -/
theorem takeDigits_some_countP :
    ∀ (k : Nat) (l r : List Char), takeDigits k l = some r →
      l.countP Char.isDigit = k + r.countP Char.isDigit := by
  intro k
  induction k with
  | zero =>
    intro l r h
    simp [takeDigits] at h
    subst h
    simp
  | succ k ih =>
    intro l r h
    cases l with
    | nil => simp [takeDigits] at h
    | cons c t =>
      by_cases hc : c.isDigit
      · rw [takeDigits, if_pos hc] at h
        have := ih t r h
        simp [List.countP_cons_of_pos _ _ hc, this]
        omega
      · rw [takeDigits, if_neg hc] at h
        cases h

/-- The optional card separator never consumes a digit's count. -/
theorem sepOpt_countP_le (l : List Char) :
    (sepOpt l).countP Char.isDigit ≤ l.countP Char.isDigit := by
  cases l with
  | nil => simp [sepOpt]
  | cons c t =>
    by_cases h : isCardSep c
    · simp only [sepOpt, if_pos h]
      rw [List.countP_cons]
      omega
    · simp [sepOpt, if_neg h]

/-- The card pattern needs sixteen digit characters to match. -/
theorem matchCard_none_of_countP_lt (prev : Option Char) (l : List Char)
    (h : l.countP Char.isDigit < 16) : matchCard prev l = none := by
  cases hm : matchCard prev l with
  | none => rfl
  | some v =>
    exfalso
    unfold matchCard at hm
    by_cases hb : atBoundary prev l.head?
    · rw [if_pos hb] at hm
      obtain ⟨r1, h1, hm⟩ := Option.bind_eq_some.mp hm
      obtain ⟨r2, h2, hm⟩ := Option.bind_eq_some.mp hm
      obtain ⟨r3, h3, hm⟩ := Option.bind_eq_some.mp hm
      obtain ⟨r4, h4, _⟩ := Option.bind_eq_some.mp hm
      have c1 := takeDigits_some_countP 4 l r1 h1
      have c2 := takeDigits_some_countP 4 (sepOpt r1) r2 h2
      have c3 := takeDigits_some_countP 4 (sepOpt r2) r3 h3
      have c4 := takeDigits_some_countP 4 (sepOpt r3) r4 h4
      have s1 := sepOpt_countP_le r1
      have s2 := sepOpt_countP_le r2
      have s3 := sepOpt_countP_le r3
      omega
    · rw [if_neg hb] at hm
      cases hm

/-- The account pattern needs ten digit characters to match. -/
theorem matchAccount_none_of_countP_lt (prev : Option Char) (l : List Char)
    (h : l.countP Char.isDigit < 10) : matchAccount prev l = none := by
  have hd := digitRun_le_countP l
  unfold matchAccount
  rw [if_neg]
  intro hc
  simp only [Bool.and_eq_true, decide_eq_true_eq] at hc
  omega

/-- The CVV pattern needs three digit characters to match. -/
theorem matchCvv_none_of_countP_lt (prev : Option Char) (l : List Char)
    (h : l.countP Char.isDigit < 3) : matchCvv prev l = none := by
  unfold matchCvv
  cases hA : matchAltCI cvvLabels l with
  | none => rfl
  | some g =>
    simp only
    have hsub : digitRun ((l.drop g).drop ((l.drop g).takeWhile isCvvSep).length)
        ≤ l.countP Char.isDigit := by
      calc digitRun ((l.drop g).drop ((l.drop g).takeWhile isCvvSep).length)
          ≤ ((l.drop g).drop ((l.drop g).takeWhile isCvvSep).length).countP Char.isDigit :=
            digitRun_le_countP _
        _ ≤ (l.drop g).countP Char.isDigit :=
            (List.drop_sublist _ _).countP_le _
        _ ≤ l.countP Char.isDigit := (List.drop_sublist _ _).countP_le _
    by_cases hs : ((l.drop g).takeWhile isCvvSep).length = 0
    · rw [if_pos hs]
    · rw [if_neg hs, if_neg (by omega), if_neg (by omega)]

/-- If the matcher can never fire below a digit budget, scanning below
that budget is the identity. -/
theorem subScan_id_of_countP_lt
    (matchAt : Option Char → List Char → Option (Nat × List Char)) (k : Nat)
    (hf : ∀ prev l, l.countP Char.isDigit < k → matchAt prev l = none) :
    ∀ (prev : Option Char) (l : List Char), l.countP Char.isDigit < k →
      subScan matchAt 0 prev l = l := by
  intro prev l
  induction l generalizing prev with
  | nil => intro _; rw [subScan]
  | cons c t ih =>
    intro h
    rw [subScan, hf prev (c :: t) h]
    have ht : t.countP Char.isDigit < k := by
      rw [List.countP_cons] at h
      omega
    rw [ih (some c) ht]

/-- The card pass leaves a text with fewer than sixteen digits unchanged. -/
theorem subScan_card_id (prev : Option Char) (l : List Char)
    (h : l.countP Char.isDigit < 16) : subScan matchCard 0 prev l = l :=
  subScan_id_of_countP_lt matchCard 16 matchCard_none_of_countP_lt prev l h

/-- The account pass leaves a text with fewer than ten digits unchanged. -/
theorem subScan_account_id (prev : Option Char) (l : List Char)
    (h : l.countP Char.isDigit < 10) : subScan matchAccount 0 prev l = l :=
  subScan_id_of_countP_lt matchAccount 10 matchAccount_none_of_countP_lt prev l h

/-- The CVV pass leaves a text with fewer than three digits unchanged. -/
theorem subScan_cvv_id (prev : Option Char) (l : List Char)
    (h : l.countP Char.isDigit < 3) : subScan matchCvv 0 prev l = l :=
  subScan_id_of_countP_lt matchCvv 3 matchCvv_none_of_countP_lt prev l h

/-- Once skipping covers the whole rest of the text, the scan emits
nothing further. -/
theorem subScan_skip_all
    (matchAt : Option Char → List Char → Option (Nat × List Char)) :
    ∀ (l : List Char) (skip : Nat) (prev : Option Char),
      l.length ≤ skip → subScan matchAt skip prev l = [] := by
  intro l
  induction l with
  | nil => intro skip prev _; rw [subScan]
  | cons c t ih =>
    intro skip prev h
    cases skip with
    | zero => simp at h
    | succ k =>
      rw [subScan]
      exact ih k (some c) (by simpa using h)

/-- Unfolding the scanner at a position where the matcher fires. -/
theorem subScan_cons_match
    (matchAt : Option Char → List Char → Option (Nat × List Char))
    (prev : Option Char) (c : Char) (t : List Char) (n : Nat)
    (repl : List Char) (hm : matchAt prev (c :: t) = some (n, repl))
    (hn : ¬ n = 0) :
    subScan matchAt 0 prev (c :: t)
      = repl ++ subScan matchAt (n - 1) (some c) t := by
  rw [subScan, hm]
  exact if_neg hn

/-- A scan whose matcher consumes the whole text at position zero returns
just the replacement. -/
theorem subScan_single_match
    (matchAt : Option Char → List Char → Option (Nat × List Char))
    (l repl : List Char) (n : Nat) (hm : matchAt none l = some (n, repl))
    (hn : n = l.length) (hpos : 0 < n) : subScan matchAt 0 none l = repl := by
  cases l with
  | nil =>
    simp at hn
    omega
  | cons c t =>
    rw [subScan_cons_match matchAt none c t n repl hm (by omega)]
    rw [subScan_skip_all matchAt t (n - 1) (some c) (by simp at hn; omega)]
    simp

/-- A CVV separator character is never a digit. -/
theorem isDigit_false_of_cvvSep {x : Char} (h : isCvvSep x = true) :
    x.isDigit = false := by
  rw [isCvvSep] at h
  simp only [Bool.or_eq_true, decide_eq_true_eq] at h
  rcases h with h | h
  · rw [Char.isWhitespace] at h
    simp only [Bool.or_eq_true, decide_eq_true_eq] at h
    rcases h with ((h | h) | h) | h <;> subst h <;> decide
  · subst h
    decide

/-- `takeWhile` over an append whose left part satisfies the predicate
throughout and whose right part starts with a failure. -/
theorem takeWhile_append_all {α : Type} (p : α → Bool) (s t : List α)
    (hs : ∀ x ∈ s, p x = true) (ht : t.takeWhile p = []) :
    (s ++ t).takeWhile p = s := by
  induction s with
  | nil => simpa using ht
  | cons c cs ih =>
    rw [List.cons_append, List.takeWhile_cons_of_pos (hs c (by simp))]
    rw [ih fun x hx => hs x (by simp [hx])]

/-- `matchCvv` at a label followed by a nonempty whitespace/colon
separator run and a 3-4 digit run. -/
theorem matchCvv_at_label (labL sd d : List Char)
    (hAlt : matchAltCI cvvLabels (labL ++ (sd ++ d)) = some labL.length)
    (hsd : sd ≠ []) (hsdc : ∀ x ∈ sd, isCvvSep x = true)
    (hd : ∀ x ∈ d, x.isDigit = true) (hlen : d.length = 3 ∨ d.length = 4) :
    matchCvv none (labL ++ (sd ++ d))
      = some (labL.length + sd.length + d.length, labL ++ ": [OCULTO]".data) := by
  unfold matchCvv
  rw [hAlt]
  simp only [List.drop_left, List.take_left]
  have htw : (sd ++ d).takeWhile isCvvSep = sd := by
    apply takeWhile_append_all _ _ _ hsdc
    cases d with
    | nil => rfl
    | cons x xs =>
      rw [List.takeWhile_cons_of_neg]
      rw [isCvvSep_false_of_digit (hd x (by simp))]
      simp
  rw [htw]
  rw [List.drop_left]
  rw [if_neg (by simpa using hsd)]
  rw [digitRun_eq_length d hd]
  rcases hlen with h3 | h4
  · rw [if_neg (by omega), if_pos (by omega), h3]
  · rw [if_pos (by omega), h4]

/-- `get_series` below the ten-series cap. -/
theorem get_series_apply (net : List String → HttpResult) (codes : List String)
    (h : ¬ codes.length > 10) :
    get_series net codes =
      (match net codes with
       | .ok d => .data d
       | .err m => .data { error := some m }
       | .badJson m => .raisedJson m,
       [codes]) := by
  rw [get_series, if_neg h]

/-- Under a failing network, the exchange-rate helper yields `None`. -/
theorem get_tipo_cambio_fst_of_fail (net : List String → HttpResult)
    (h : (net [tcPromedioCode, tcCompraCode, tcVentaCode]).isFailure = true) :
    (get_tipo_cambio net).1 = none := by
  unfold get_tipo_cambio
  rw [get_series_apply net _ (by decide)]
  cases hn : net [tcPromedioCode, tcCompraCode, tcVentaCode] with
  | ok d => rw [hn] at h; simp [HttpResult.isFailure] at h
  | err m => simp
  | badJson m => simp

/-- Under a failing network, the interest-rate helper yields `None`. -/
theorem get_tasas_fst_of_fail (net : List String → HttpResult)
    (h : (net [tasaReferenciaCode, tamnDepositosCode, tamexDepositosCode]).isFailure
      = true) :
    (get_tasas_interes net).1 = none := by
  unfold get_tasas_interes
  rw [get_series_apply net _ (by decide)]
  cases hn : net [tasaReferenciaCode, tamnDepositosCode, tamexDepositosCode] with
  | ok d => rw [hn] at h; simp [HttpResult.isFailure] at h
  | err m => simp
  | badJson m => simp

/-- Under a failing network, the latest-value helper yields `None`. -/
theorem get_latest_fst_of_fail (net : List String → HttpResult) (code : String)
    (h : (net [code]).isFailure = true) :
    (get_latest_value net code).1 = none := by
  unfold get_latest_value
  rw [get_series_apply net [code] (by simp)]
  cases hn : net [code] with
  | ok d => rw [hn] at h; simp [HttpResult.isFailure] at h
  | err m => simp
  | badJson m => simp

/-! ## Claim theorems -/

/-- Claim C1 (code bug): contrary to the specification's invariant, a
turn whose generated output is blocked by `check_output` does alter the
session history.  At the failing input (empty history, user message
"hola", generated response "no puedo ayudarte con eso", which the output
screen blocks on the keyword "no puedo ayudarte"), `on_message` ends in
the output-blocked state yet the history has gained both the user entry
and the blocked response entry: the commit happens when the stream
completes, before output screening, and is never rolled back. -/
theorem c1_blocked_output_turn_commits_history :
    (check_output "no puedo ayudarte con eso").1 = true ∧
    on_message [] "hola" ["no puedo ayudarte con eso"]
      = ([⟨"human", "hola"⟩, ⟨"ai", "no puedo ayudarte con eso"⟩],
         .outputBlocked) ∧
    ([⟨"human", "hola"⟩, ⟨"ai", "no puedo ayudarte con eso"⟩] : List ChatMsg)
      ≠ [] := by
  decide

/-- Claim C6: a message matching none of the four intent keyword lists
makes `get_economic_context` return the empty string with no request made
to the statistics service. -/
theorem c6_no_intent_no_fetch (message : String)
    (net : List String → HttpResult)
    (h : detect_economic_query message = none) :
    get_economic_context message net = ("", []) := by
  rw [get_economic_context, h]

/-- Claim C6 witness at the intent-free message "hola que tal". -/
theorem c6_no_intent_no_fetch_witness :
    get_economic_context "hola que tal" (fun _ => HttpResult.err "down")
      = ("", []) :=
  c6_no_intent_no_fetch "hola que tal" (fun _ => HttpResult.err "down")
    (by decide)

/-- Claim C8: `get_series` fails fast with the `ValueError` (issuing no
request) on more than ten series codes, and never raises that error on
ten or fewer. -/
theorem c8_get_series_max_ten (net : List String → HttpResult)
    (series_codes : List String) :
    (series_codes.length > 10 →
      get_series net series_codes = (.valueError, [])) ∧
    (series_codes.length ≤ 10 →
      (get_series net series_codes).1 ≠ .valueError) := by
  constructor
  · intro h
    rw [get_series, if_pos h]
  · intro h
    rw [get_series_apply net series_codes (by omega)]
    cases hn : net series_codes <;> simp

/-- Claim C8 witness: eleven codes fail fast with no request; three codes
do not raise. -/
theorem c8_get_series_max_ten_witness :
    get_series (fun _ => HttpResult.err "down")
        ["a", "b", "c", "d", "e", "f", "g", "h", "i", "j", "k"]
      = (.valueError, []) ∧
    (get_series (fun _ => HttpResult.err "down")
        [tcPromedioCode, tcCompraCode, tcVentaCode]).1 ≠ .valueError :=
  ⟨(c8_get_series_max_ten _ _).1 (by decide),
   (c8_get_series_max_ten _ _).2 (by decide)⟩

/-- Claim C9: a message with fewer than three whitespace-separated words
is declared valid with an empty reason, regardless of keywords. -/
theorem c9_short_message_valid (message : String)
    (h : (pySplit message).length < 3) :
    validate_financial_context message = (true, "") := by
  rw [validate_financial_context, if_pos h]

/-- Claim C9 witness at the two-word, keyword-free message
"hola amigo". -/
theorem c9_short_message_valid_witness :
    (pySplit "hola amigo").length < 3 ∧
    validate_financial_context "hola amigo" = (true, "") :=
  ⟨by decide, c9_short_message_valid "hola amigo" (by decide)⟩

/-- Claim C3: any inbound text containing a configured input keyword
(case-insensitively) is blocked with kind "palabra"; the reported match
is the first keyword in declaration order that occurs in the text (so the
keyword stage short-circuits both the remaining keywords and the regex
stage), and it does occur in the text. -/
theorem c3_input_keyword_blocks (message : String)
    (h : palabras_in.any (fun palabra => pyIn (pyLower palabra) (pyLower message))
      = true) :
    (check_input message).1 = true ∧
    (check_input message).2.1 = "palabra" ∧
    palabras_in.find? (fun palabra => pyIn (pyLower palabra) (pyLower message))
      = some (check_input message).2.2 ∧
    pyIn (pyLower (check_input message).2.2) (pyLower message) = true := by
  have hs : (palabras_in.find?
      fun palabra => pyIn (pyLower palabra) (pyLower message)).isSome := by
    rw [List.find?_isSome]
    rw [List.any_eq_true] at h
    exact h
  obtain ⟨k, hk⟩ := Option.isSome_iff_exists.mp hs
  have hc : check_input message = (true, "palabra", k) := by
    simp only [check_input]
    rw [hk]
  refine ⟨by rw [hc], by rw [hc], ?_, ?_⟩
  · rw [hc]
    exact hk
  · rw [hc]
    have hp := List.find?_some hk
    simpa using hp

/-- Claim C3 witness at the message "quiero hackear el cajero", blocked
on the first-listed keyword "hackear". -/
theorem c3_input_keyword_blocks_witness :
    (check_input "quiero hackear el cajero").1 = true ∧
    (check_input "quiero hackear el cajero").2.1 = "palabra" ∧
    palabras_in.find?
        (fun palabra =>
          pyIn (pyLower palabra) (pyLower "quiero hackear el cajero"))
      = some (check_input "quiero hackear el cajero").2.2 ∧
    pyIn (pyLower (check_input "quiero hackear el cajero").2.2)
        (pyLower "quiero hackear el cajero") = true :=
  c3_input_keyword_blocks "quiero hackear el cajero" (by decide)

/-- Claim C10: any message containing "tc" (after lowercasing), even
inside a longer word, is classified as the exchange-rate intent, because
the exchange-rate list is checked first and contains the bare keyword
"tc". -/
theorem c10_tc_substring_forces_exchange_intent (message : String)
    (h : pyIn "tc" (pyLower message) = true) :
    detect_economic_query message = some "tipo_cambio" := by
  have hany : (["tipo de cambio", "dolar", "dólar", "tc", "cambio dolar"].any
      fun keyword => pyIn keyword (pyLower message)) = true := by
    rw [List.any_eq_true]
    exact ⟨"tc", by simp, h⟩
  have hfind : List.find?
      (fun p => p.2.any fun keyword => pyIn keyword (pyLower message))
      [("tipo_cambio", ["tipo de cambio", "dolar", "dólar", "tc", "cambio dolar"]),
       ("tasas", ["tasa de interes", "tasa de interés", "tamn", "tamex", "tasa referencia"]),
       ("inflacion", ["inflacion", "inflación", "ipc"]),
       ("general", ["datos económicos", "indicadores económicos", "estadísticas bcrp"])]
      = some ("tipo_cambio",
          ["tipo de cambio", "dolar", "dólar", "tc", "cambio dolar"]) := by
    apply List.find?_cons_of_pos
    exact hany
  simp only [detect_economic_query, econPatterns]
  rw [hfind]
  rfl

/-- Claim C10 witness: an interest-rate question mentioning "TCEA" is
classified as the exchange-rate intent. -/
theorem c10_tc_substring_forces_exchange_intent_witness :
    detect_economic_query "que TCEA me cobran por el préstamo"
      = some "tipo_cambio" :=
  c10_tc_substring_forces_exchange_intent "que TCEA me cobran por el préstamo"
    (by decide)

/-- Claim C7: the query "cual es el tipo de cambio hoy" selects the
exchange-rate intent; the resolver issues exactly one batched request for
the three exchange-rate series codes (whatever the network returns); and
from an ok response the helper takes the last period and maps its values
back to the requested codes by position (promedio, compra, venta in
request order), never by series name. -/
theorem c7_exchange_rate_batched_positional :
    detect_economic_query "cual es el tipo de cambio hoy"
      = some "tipo_cambio" ∧
    (∀ net : List String → HttpResult,
      (get_economic_context "cual es el tipo de cambio hoy" net).2
        = [[tcPromedioCode, tcCompraCode, tcVentaCode]]) ∧
    (∀ (net : List String → HttpResult) (d : ApiData) (ps : List Period)
        (last_period : Period),
      net [tcPromedioCode, tcCompraCode, tcVentaCode] = .ok d →
      d.periods = some ps → ps.getLast? = some last_period →
      (get_tipo_cambio net).1
        = some { fecha := last_period.name,
                 promedio := (last_period.values.getD [])[0]?,
                 compra := (last_period.values.getD [])[1]?,
                 venta := (last_period.values.getD [])[2]? }) := by
  refine ⟨by decide, ?_, ?_⟩
  · intro net
    rfl
  · intro net d ps last_period h1 h2 h3
    unfold get_tipo_cambio
    rw [get_series_apply net [tcPromedioCode, tcCompraCode, tcVentaCode]
      (by decide)]
    rw [h1]
    simp [h2, h3]

/-- Claim C7 witness at a two-period response: the last period is used
and values map to promedio, compra, venta by position. -/
theorem c7_exchange_rate_batched_positional_witness :
    (get_tipo_cambio (fun _ => HttpResult.ok
        { periods := some [⟨some "p1", some ["1", "2", "3"]⟩,
                           ⟨some "p2", some ["4", "5", "6"]⟩] })).1
      = some { fecha := some "p2", promedio := some "4", compra := some "5",
               venta := some "6" } := by
  have h := c7_exchange_rate_batched_positional.2.2
    (fun _ => HttpResult.ok
      { periods := some [⟨some "p1", some ["1", "2", "3"]⟩,
                         ⟨some "p2", some ["4", "5", "6"]⟩] })
    { periods := some [⟨some "p1", some ["1", "2", "3"]⟩,
                       ⟨some "p2", some ["4", "5", "6"]⟩] }
    [⟨some "p1", some ["1", "2", "3"]⟩, ⟨some "p2", some ["4", "5", "6"]⟩]
    ⟨some "p2", some ["4", "5", "6"]⟩ rfl rfl rfl
  exact h.trans (by rfl)

/-- Claim C2 counterexample: with every fetch failing, the resolver on
the exchange-rate query "dolar" does not return the empty string — it
returns the header and source line with no data. -/
theorem c2_failure_nonempty_counterexample :
    (get_economic_context "dolar" (fun _ => HttpResult.err "timeout")).1
      = bcrpFailureContext ∧
    (get_economic_context "dolar" (fun _ => HttpResult.err "timeout")).1
      ≠ "" := by
  decide

/-- Claim C2 (amended): for every query matching an economic intent, if
every external fetch fails (network error, HTTP error, or malformed
response), `get_economic_context` returns — with no exception escaping,
as the embedding is total — the fixed non-empty header-and-source
placeholder context rather than the empty string. -/
theorem c2_failure_yields_placeholder_context (message : String)
    (net : List String → HttpResult)
    (hnet : ∀ codes, (net codes).isFailure = true)
    (hq : (detect_economic_query message).isSome = true) :
    (get_economic_context message net).1 = bcrpFailureContext ∧
    (get_economic_context message net).1 ≠ "" := by
  obtain ⟨qt, hqt⟩ := Option.isSome_iff_exists.mp hq
  have hmem : qt ∈ ["tipo_cambio", "tasas", "inflacion", "general"] := by
    rw [detect_economic_query] at hqt
    obtain ⟨p, hfind, hp1⟩ := Option.map_eq_some'.mp hqt
    have hpm := List.mem_of_find?_eq_some hfind
    subst hp1
    fin_cases hpm <;> simp
  have hmain : (get_economic_context message net).1 = bcrpFailureContext := by
    simp only [List.mem_cons, List.not_mem_nil, or_false] at hmem
    rcases hmem with rfl | rfl | rfl | rfl
    · rcases hgt : get_tipo_cambio net with ⟨d, cs⟩
      have hd : d = none := by
        have hx := get_tipo_cambio_fst_of_fail net (hnet _)
        rw [hgt] at hx
        exact hx
      subst hd
      simp [get_economic_context, hqt, hgt, bcrpFailureContext]
    · rcases hgt : get_tasas_interes net with ⟨d, cs⟩
      have hd : d = none := by
        have hx := get_tasas_fst_of_fail net (hnet _)
        rw [hgt] at hx
        exact hx
      subst hd
      simp [get_economic_context, hqt, hgt, bcrpFailureContext]
    · rcases hgt : get_latest_value net inflacionAnualCode with ⟨d, cs⟩
      have hd : d = none := by
        have hx := get_latest_fst_of_fail net inflacionAnualCode (hnet _)
        rw [hgt] at hx
        exact hx
      subst hd
      simp [get_economic_context, get_inflacion, hqt, hgt, bcrpFailureContext]
    · rcases hgt : get_tipo_cambio net with ⟨d1, cs1⟩
      rcases hgs : get_tasas_interes net with ⟨d2, cs2⟩
      have hd1 : d1 = none := by
        have hx := get_tipo_cambio_fst_of_fail net (hnet _)
        rw [hgt] at hx
        exact hx
      have hd2 : d2 = none := by
        have hx := get_tasas_fst_of_fail net (hnet _)
        rw [hgs] at hx
        exact hx
      subst hd1
      subst hd2
      simp [get_economic_context, hqt, hgt, hgs, bcrpFailureContext]
  refine ⟨hmain, ?_⟩
  rw [hmain]
  decide

/-- Claim C2 (amended) witness at the query "dolar" with a constantly
failing network. -/
theorem c2_failure_yields_placeholder_context_witness :
    (get_economic_context "dolar" (fun _ => HttpResult.err "down")).1
      = bcrpFailureContext ∧
    (get_economic_context "dolar" (fun _ => HttpResult.err "down")).1
      ≠ "" :=
  c2_failure_yields_placeholder_context "dolar" (fun _ => HttpResult.err "down")
    (fun _ => rfl) (by decide)

/-- The full sanitiser on a digit-free label, a nonempty whitespace/colon
separator run, and a 3-4 digit run: the card and account passes are
identity, and the CVV pass rewrites the whole text to the label, a
normalised ": " separator, and the mask. -/
theorem sanitize_label_sep_digits (labL sd d : List Char)
    (hAlt : matchAltCI cvvLabels (labL ++ (sd ++ d)) = some labL.length)
    (hsd : sd ≠ []) (hsdc : ∀ x ∈ sd, isCvvSep x = true)
    (hd : ∀ x ∈ d, x.isDigit = true) (hlen : d.length = 3 ∨ d.length = 4)
    (hcnt : labL.countP Char.isDigit = 0) :
    subScan matchCvv 0 none
        (subScan matchAccount 0 none
          (subScan matchCard 0 none (labL ++ (sd ++ d))))
      = labL ++ ": [OCULTO]".data := by
  have hdlen : d.length ≤ 4 := by rcases hlen with h | h <;> omega
  have hle : d.countP Char.isDigit ≤ d.length := List.countP_le_length _
  have hsd0 : sd.countP Char.isDigit = 0 := by
    rw [List.countP_eq_zero]
    intro a ha
    simp [isDigit_false_of_cvvSep (hsdc a ha)]
  have hc : (labL ++ (sd ++ d)).countP Char.isDigit ≤ 4 := by
    rw [List.countP_append, List.countP_append, hcnt, hsd0]
    omega
  rw [subScan_card_id none _ (by omega)]
  rw [subScan_account_id none _ (by omega)]
  have hm := matchCvv_at_label labL sd d hAlt hsd hsdc hd hlen
  exact subScan_single_match matchCvv _ _ _ hm (by simp; omega) (by omega)

/-- Claim C4 counterexample: on "cvv 123" the sanitiser does not leave
the text outside the digits unchanged — the space separating label and
digits is rewritten to ": ". -/
theorem c4_cvv_separator_rewritten_counterexample :
    sanitize_financial_data "cvv 123" = "cvv: [OCULTO]" ∧
    sanitize_financial_data "cvv 123" ≠ "cvv [OCULTO]" := by
  decide

/-- Claim C4 (amended): for every text consisting of one of the labels
"cvv", "código", "code", "cvc", a nonempty run of whitespace/colon
separator characters, and a 3-4 digit value, the sanitiser replaces the
digits together with the separator, rewriting the text to the label
(preserved) followed by ": [OCULTO]"; likewise the embedded match in
"mi cvv: 123 por favor" is rewritten this way with the surrounding text
unchanged.  (Surrounding text is not untouched for arbitrary texts: the
card and account passes run first and may mask digit runs elsewhere or
consume the digits before the CVV rule sees them.) -/
theorem c4_cvv_masking_amended (lab : String) (hlab : lab ∈ cvvLabels)
    (sep : String) (hsep : sep.data ≠ [])
    (hsepc : ∀ x ∈ sep.data, isCvvSep x = true)
    (d : List Char) (hd : d.all Char.isDigit = true)
    (hlen : d.length = 3 ∨ d.length = 4) :
    sanitize_financial_data (lab ++ sep ++ ⟨d⟩) = lab ++ ": [OCULTO]" ∧
    sanitize_financial_data "mi cvv: 123 por favor"
      = "mi cvv: [OCULTO] por favor" := by
  rw [List.all_eq_true] at hd
  refine ⟨?_, by decide⟩
  fin_cases hlab
  · exact congrArg String.mk
      (sanitize_label_sep_digits "cvv".data sep.data d rfl hsep hsepc hd hlen
        (by decide))
  · exact congrArg String.mk
      (sanitize_label_sep_digits "código".data sep.data d rfl hsep hsepc hd hlen
        (by decide))
  · exact congrArg String.mk
      (sanitize_label_sep_digits "code".data sep.data d rfl hsep hsepc hd hlen
        (by decide))
  · exact congrArg String.mk
      (sanitize_label_sep_digits "cvc".data sep.data d rfl hsep hsepc hd hlen
        (by decide))

/-- Claim C4 (amended) witness: a 3-digit value behind a ": " separator
and a 4-digit value behind a single space, both after the label "cvv". -/
theorem c4_cvv_masking_amended_witness :
    (sanitize_financial_data ("cvv" ++ ": " ++ ⟨['1', '2', '3']⟩)
        = "cvv" ++ ": [OCULTO]" ∧
      sanitize_financial_data "mi cvv: 123 por favor"
        = "mi cvv: [OCULTO] por favor") ∧
    (sanitize_financial_data ("cvv" ++ " " ++ ⟨['9', '8', '7', '6']⟩)
        = "cvv" ++ ": [OCULTO]" ∧
      sanitize_financial_data "mi cvv: 123 por favor"
        = "mi cvv: [OCULTO] por favor") :=
  ⟨c4_cvv_masking_amended "cvv" (by decide) ": " (by decide) (by decide)
      ['1', '2', '3'] (by decide) (by decide),
   c4_cvv_masking_amended "cvv" (by decide) " " (by decide) (by decide)
      ['9', '8', '7', '6'] (by decide) (by decide)⟩

/-- Claim C5 counterexample: sanitising is not idempotent.  On a CVV
label followed by a 21-digit run the first pass masks only the first four
digits, leaving a 17-digit residue that a second pass masks as an account
number. -/
theorem c5_sanitize_not_idempotent_counterexample :
    sanitize_financial_data
        (sanitize_financial_data "cvv 123456789012345678901")
      ≠ sanitize_financial_data "cvv 123456789012345678901" ∧
    sanitize_financial_data "cvv 123456789012345678901"
      = "cvv: [OCULTO]56789012345678901" ∧
    sanitize_financial_data
        (sanitize_financial_data "cvv 123456789012345678901")
      = "cvv: [OCULTO][CUENTA-OCULTA]" := by
  decide

/-- Claim C5 (amended): the sanitiser is idempotent on every input whose
sanitised form contains no digit characters (in particular the masked
tokens are never re-masked); the counterexample shows it is not
idempotent in general. -/
theorem c5_sanitize_idempotent_on_digitfree (x : String)
    (h : (sanitize_financial_data x).data.countP Char.isDigit = 0) :
    sanitize_financial_data (sanitize_financial_data x)
      = sanitize_financial_data x := by
  generalize hg : sanitize_financial_data x = y at h ⊢
  show pySub matchCvv (pySub matchAccount (pySub matchCard y)) = y
  have h1 : pySub matchCard y = y := by
    unfold pySub
    rw [subScan_card_id none y.data (by omega)]
  have h2 : pySub matchAccount y = y := by
    unfold pySub
    rw [subScan_account_id none y.data (by omega)]
  have h3 : pySub matchCvv y = y := by
    unfold pySub
    rw [subScan_cvv_id none y.data (by omega)]
  rw [h1, h2, h3]

/-- Claim C5 (amended) witness: a masked card number sanitises to a
digit-free string, on which sanitising is idempotent. -/
theorem c5_sanitize_idempotent_on_digitfree_witness :
    ((sanitize_financial_data "mi tarjeta es 4111 1111 1111 1111").data.countP
        Char.isDigit = 0) ∧
    sanitize_financial_data
        (sanitize_financial_data "mi tarjeta es 4111 1111 1111 1111")
      = sanitize_financial_data "mi tarjeta es 4111 1111 1111 1111" :=
  ⟨by decide,
   c5_sanitize_idempotent_on_digitfree "mi tarjeta es 4111 1111 1111 1111"
     (by decide)⟩
